import Mathlib

/-!
Shallow embedding of the inference-and-explanation pipeline of the
HR-Attrition-Prediction app (src/main.py): the feature schema and input
normalizer (`HRFeatureCategorizer`), the model-input builder
(`prepare_model_input`), the prediction service (`make_prediction`), the
explanation service (`create_lime_explanation`) and the rule-based
risk-factor checks (`display_prediction_results`).

Python dicts with string keys are modelled as association lists looked up by
first match (all dictionaries in the source have distinct keys).  Machine
floats are modelled as exact rationals; integer feature codes as `Int`.
External artifacts (the trained classifier, the fitted scaler, the LIME
explainer) are black boxes: they enter as function parameters, fallible ones
returning `Except` to model Python exceptions.
-/

namespace HRApp

/-- A raw profile value as entered in the form: either a display-label string
(for selectbox features) or a number. -/
inductive RawValue where
  | str (s : String)
  | num (n : Int)
deriving DecidableEq, Repr

/-- First-match lookup in an association list with `Int` values; models
Python `d[k]` / `k in d` on a string-keyed dict. -/
def lookupVal (l : List (String × Int)) (k : String) : Option Int :=
  (l.find? (fun e => e.1 == k)).map (fun e => e.2)

/-- Models Python `d.get(k, default)`. -/
def getD (l : List (String × Int)) (k : String) (d : Int) : Int :=
  (lookupVal l k).getD d

/-- One entry of `HRFeatureCategorizer.hr_features`: the `"type"` string and,
for selectbox features, the `"options"` label-to-code mapping.  The purely
presentational keys (`min`, `max`, `default`, `unit`, `label`, `explanation`)
play no part in any pipeline computation and are omitted. -/
structure FeatureConfig where
  ftype : String
  options : Option (List (String × Int))
deriving DecidableEq, Repr

/-- The feature schema `_define_essential_hr_features` (src/main.py lines
75-161), in source order, with the exact option maps. -/
def hr_features : List (String × FeatureConfig) := [
  ("Age", ⟨"number", none⟩),
  ("Gender", ⟨"selectbox", some [("Perempuan", 0), ("Laki-laki", 1)]⟩),
  ("MaritalStatus", ⟨"selectbox", some [("Lajang", 0), ("Menikah", 1), ("Bercerai", 2)]⟩),
  ("DistanceFromHome", ⟨"number", none⟩),
  ("JobLevel", ⟨"selectbox", some [("Pemula", 1), ("Junior", 2), ("Menengah", 3), ("Senior", 4), ("Eksekutif", 5)]⟩),
  ("YearsAtCompany", ⟨"number", none⟩),
  ("YearsInCurrentRole", ⟨"number", none⟩),
  ("YearsSinceLastPromotion", ⟨"number", none⟩),
  ("OverTime", ⟨"selectbox", some [("Tidak", 0), ("Ya", 1)]⟩),
  ("BusinessTravel", ⟨"selectbox", some [("Tidak Pernah", 0), ("Jarang", 1), ("Sering", 2)]⟩),
  ("MonthlyIncome", ⟨"number", none⟩),
  ("PercentSalaryHike", ⟨"slider", none⟩),
  ("StockOptionLevel", ⟨"selectbox", some [("Tidak Ada", 0), ("Dasar", 1), ("Standar", 2), ("Premium", 3)]⟩),
  ("JobSatisfaction", ⟨"selectbox", some [("Rendah", 1), ("Sedang", 2), ("Tinggi", 3), ("Sangat Tinggi", 4)]⟩),
  ("WorkLifeBalance", ⟨"selectbox", some [("Buruk", 1), ("Baik", 2), ("Lebih Baik", 3), ("Terbaik", 4)]⟩),
  ("EnvironmentSatisfaction", ⟨"selectbox", some [("Rendah", 1), ("Sedang", 2), ("Tinggi", 3), ("Sangat Tinggi", 4)]⟩),
  ("PerformanceRating", ⟨"selectbox", some [("Rendah", 1), ("Baik", 2), ("Sangat Baik", 3), ("Luar Biasa", 4)]⟩)]

/-- Schema lookup, models `key in self.hr_features` / `self.hr_features[key]`. -/
def lookupFeature (key : String) : Option FeatureConfig :=
  (hr_features.find? (fun e => e.1 == key)).map (fun e => e.2)

/-- The hard-coded fallback label maps of the `else` branch of the
normalization loop (src/main.py lines 379-390), used for keys absent from
the schema. -/
def fallback_mapping : List (String × List (String × Int)) := [
  ("Gender", [("Perempuan", 0), ("Laki-laki", 1)]),
  ("MaritalStatus", [("Lajang", 0), ("Menikah", 1), ("Bercerai", 2)]),
  ("JobLevel", [("Pemula", 1), ("Junior", 2), ("Menengah", 3), ("Senior", 4), ("Eksekutif", 5)]),
  ("OverTime", [("Tidak", 0), ("Ya", 1)]),
  ("BusinessTravel", [("Tidak Pernah", 0), ("Jarang", 1), ("Sering", 2)]),
  ("StockOptionLevel", [("Tidak Ada", 0), ("Dasar", 1), ("Standar", 2), ("Premium", 3)]),
  ("JobSatisfaction", [("Rendah", 1), ("Sedang", 2), ("Tinggi", 3), ("Sangat Tinggi", 4)]),
  ("WorkLifeBalance", [("Buruk", 1), ("Baik", 2), ("Lebih Baik", 3), ("Terbaik", 4)]),
  ("EnvironmentSatisfaction", [("Rendah", 1), ("Sedang", 2), ("Tinggi", 3), ("Sangat Tinggi", 4)]),
  ("PerformanceRating", [("Rendah", 1), ("Baik", 2), ("Sangat Baik", 3), ("Luar Biasa", 4)])]

/-- Normalization of one profile entry, the body of the conversion loop in
`create_hr_input_form` (src/main.py lines 369-394): a selectbox label is
resolved through `options.get(value, 0)` (a non-string value, impossible for
a string-keyed dict, also yields the default 0); a numeric feature passes
through unchanged; a key outside the schema goes through `fallback_mapping`
the same way, or passes through when unknown there too. -/
def normalize_value (key : String) (value : RawValue) : RawValue :=
  match lookupFeature key with
  | some cfg =>
    if cfg.ftype = "selectbox" ∧ cfg.options.isSome then
      match value with
      | .str s => .num (getD (cfg.options.getD []) s 0)
      | .num _ => .num 0
    else value
  | none =>
    match (fallback_mapping.find? (fun e => e.1 == key)).map (fun e => e.2) with
    | some opts =>
      match value with
      | .str s => .num (getD opts s 0)
      | .num _ => .num 0
    | none => value

/-- The whole conversion loop of `create_hr_input_form`: `numeric_data` from
`input_data` (src/main.py lines 369-396). -/
def normalize_profile (input_data : List (String × RawValue)) : List (String × RawValue) :=
  input_data.map (fun e => (e.1, normalize_value e.1 e.2))

/-- The app hands `make_prediction` and `create_lime_explanation` the
numeric profile produced by the form; this projects the normalized profile
to its integer entries (after normalization every selectbox value is a
`.num`, and the numeric fields the app feeds in are integers). -/
def toNumericProfile (l : List (String × RawValue)) : List (String × Int) :=
  l.filterMap (fun e => match e.2 with | .num n => some (e.1, n) | .str _ => none)

/-- The identity key-to-column map `feature_mapping` of `prepare_model_input`
(src/main.py lines 513-527); both sides of every pair coincide, so only the
column names are kept. -/
def feature_mapping : List String :=
  ["Age", "MonthlyIncome", "YearsAtCompany", "YearsInCurrentRole", "YearsSinceLastPromotion",
   "DistanceFromHome", "PercentSalaryHike", "JobLevel", "StockOptionLevel", "JobSatisfaction",
   "WorkLifeBalance", "EnvironmentSatisfaction", "PerformanceRating"]

/-- The `categorical_mappings` one-hot synthesis of `prepare_model_input`
(src/main.py lines 533-540): `some v` when `name` is one of the six
synthesized indicator columns, `none` otherwise. -/
def categorical_mapping_value (hr_input : List (String × Int)) (name : String) : Option Int :=
  if name = "Gender_Male" then some (if getD hr_input "Gender" 0 = 1 then 1 else 0)
  else if name = "MaritalStatus_Married" then some (if getD hr_input "MaritalStatus" 0 = 1 then 1 else 0)
  else if name = "MaritalStatus_Single" then some (if getD hr_input "MaritalStatus" 0 = 0 then 1 else 0)
  else if name = "OverTime_Yes" then some (if getD hr_input "OverTime" 0 = 1 then 1 else 0)
  else if name = "BusinessTravel_Travel_Frequently" then some (if getD hr_input "BusinessTravel" 0 = 2 then 1 else 0)
  else if name = "BusinessTravel_Travel_Rarely" then some (if getD hr_input "BusinessTravel" 0 = 1 then 1 else 0)
  else none

/-- Final value of one column of the single-row DataFrame built by
`prepare_model_input`: the frame starts all-zero (`fillna(0)`), direct
columns named in `feature_mapping` are copied from `hr_input` when the key
is present, and the six indicator columns are overwritten by
`categorical_mappings`.  The direct names and the indicator names are
disjoint, so the row is a function of the column name alone. -/
def columnValue (hr_input : List (String × Int)) (name : String) : Int :=
  match categorical_mapping_value hr_input name with
  | some v => v
  | none =>
    if feature_mapping.contains name then
      match lookupVal hr_input name with
      | some v => v
      | none => 0
    else 0

/-- `prepare_model_input` (src/main.py lines 507-546): the single row of the
model-input DataFrame, in the column order of `feature_names`. -/
def prepare_model_input (hr_input : List (String × Int)) (feature_names : List String) : List Int :=
  feature_names.map (columnValue hr_input)

/-- The trained classifier artifact, a black box per the spec: `predict` and
`predict_proba` on a (scaled) input row, each able to raise. -/
structure TrainedModel where
  predict : List ℚ → Except String Int
  predictProba : List ℚ → Except String (ℚ × ℚ)

/-- `scaler.transform` applied to the prepared model input, shared by
`make_prediction` and `create_lime_explanation` (src/main.py lines 553-555
and 620-622): when a scaler artifact is present it is a black-box fallible
transform, otherwise the input passes through. -/
def scaled_model_input (scalerTransform : Option (List ℚ → Except String (List ℚ)))
    (hr_input : List (String × Int)) (feature_names : List String) : Except String (List ℚ) :=
  let model_input : List ℚ := (prepare_model_input hr_input feature_names).map (fun n => (n : ℚ))
  match scalerTransform with
  | some f => f model_input
  | none => .ok model_input

/-- Python builtin `min` on two rationals: the first argument when the
arguments compare equal. -/
def pyMin (a b : ℚ) : ℚ := if a ≤ b then a else b

/-- Python builtin `max` on two rationals: the first argument when the
arguments compare equal. -/
def pyMax (a b : ℚ) : ℚ := if b ≤ a then a else b

/-- `make_prediction` (src/main.py lines 606-631).  With no model the
deterministic fallback heuristic runs: `risk = 0.3 + overtime*0.2 +
(1 - jobSatisfaction/4)*0.3 + (1 - workLifeBalance/4)*0.2` with dict
defaults 0, 3, 3, clamped by `min(max(risk, 0.05), 0.95)`; label 1 iff
`risk > 0.5`; probabilities `[1-risk, risk]`.  With a model, the prepared
input is scaled and handed to the black-box `predict`/`predict_proba`.  The
surrounding `try/except` returns `None` on any exception, modelled as the
`none` result. -/
def make_prediction (model : Option TrainedModel)
    (scalerTransform : Option (List ℚ → Except String (List ℚ)))
    (hr_input : List (String × Int)) (feature_names : List String) :
    Option (Int × (ℚ × ℚ)) :=
  match model with
  | none =>
    let risk_score0 : ℚ := 3/10 + (getD hr_input "OverTime" 0 : ℚ) * (2/10)
      + (1 - (getD hr_input "JobSatisfaction" 3 : ℚ) / 4) * (3/10)
      + (1 - (getD hr_input "WorkLifeBalance" 3 : ℚ) / 4) * (2/10)
    let risk_score := pyMin (pyMax risk_score0 (5/100)) (95/100)
    some ((if risk_score > 1/2 then 1 else 0), (1 - risk_score, risk_score))
  | some m =>
    match scaled_model_input scalerTransform hr_input feature_names with
    | .error _ => none
    | .ok input =>
      match m.predict input, m.predictProba input with
      | .ok pred, .ok proba => some (pred, proba)
      | _, _ => none

/-- The explanation cache, keyed by the sorted item list of the raw numeric
profile (the source key is `str(sorted(hr_input.items()))`; `str` is
injective on sorted item lists, so the sorted list itself serves as the
key). -/
abbrev ExplanationCache := List (List (String × Int) × (List String × List ℚ))

/-- Python tuple ordering on `(str, int)` pairs, as used by `sorted`. -/
def pairLE (a b : String × Int) : Bool :=
  if a.1 < b.1 then true else if a.1 = b.1 then a.2 ≤ b.2 else false

/-- Insertion into a sorted pair list. -/
def insertPair (x : String × Int) : List (String × Int) → List (String × Int)
  | [] => [x]
  | y :: ys => if pairLE x y then x :: y :: ys else y :: insertPair x ys

/-- `sorted(hr_input.items())`: the cache key of `create_lime_explanation`
(src/main.py line 558). -/
def cacheKey (hr_input : List (String × Int)) : List (String × Int) :=
  hr_input.foldr insertPair []

/-- Cache lookup, modelling `input_key in explanation_cache` followed by
`explanation_cache[input_key]` (the additional truthiness guard
`if explanation_cache and ...` only short-circuits lookups that would fail
anyway on an empty cache). -/
def lookupCache (cache : ExplanationCache) (key : List (String × Int)) :
    Option (List String × List ℚ) :=
  (cache.find? (fun e => e.1 == key)).map (fun e => e.2)

/-- `create_lime_explanation` (src/main.py lines 548-604).  Returns the
`(features, values)` pair together with the number of surrogate-explainer
invocations this call performed.  Faithful control flow: prepare and scale
the input first; then look the sorted-items key up in the cache and return
the cached pair verbatim on a hit; on a miss invoke the explainer (the LIME
construction with its `num_features`/`num_samples`/seed-42 noise background
is folded into the black-box `explainInstance`) and split its `(descriptor,
weight)` list into the two parallel lists.  The enclosing `try/except`
returns `([], [])` whenever scaling or the explainer raises.  The cache is
read, never written. -/
def create_lime_explanation
    (scalerTransform : Option (List ℚ → Except String (List ℚ)))
    (explainInstance : List ℚ → Except String (List (String × ℚ)))
    (hr_input : List (String × Int)) (feature_names : List String)
    (explanation_cache : ExplanationCache) :
    (List String × List ℚ) × Nat :=
  match scaled_model_input scalerTransform hr_input feature_names with
  | .error _ => (([], []), 0)
  | .ok model_input =>
    let input_key := cacheKey hr_input
    match lookupCache explanation_cache input_key with
    | some cached => (cached, 0)
    | none =>
      match explainInstance model_input with
      | .error _ => (([], []), 1)
      | .ok exp_list => ((exp_list.map (fun e => e.1), exp_list.map (fun e => e.2)), 1)

/-- The rule-based risk-factor checks of `display_prediction_results`
(src/main.py lines 828-853), in source order, each an independent threshold
test on the raw numeric profile with the source's `get` defaults; the flags
are named after the conditions (the source appends display strings). -/
def risk_factors (hr_input : List (String × Int)) : List String :=
  (if getD hr_input "OverTime" 0 = 1 then ["overtime"] else []) ++
  (if getD hr_input "JobSatisfaction" 4 ≤ 2 then ["low_job_satisfaction"] else []) ++
  (if getD hr_input "WorkLifeBalance" 4 ≤ 2 then ["poor_work_life_balance"] else []) ++
  (if getD hr_input "YearsSinceLastPromotion" 0 ≥ 3 then ["no_promotion"] else []) ++
  (if getD hr_input "DistanceFromHome" 0 > 20 then ["distance"] else []) ++
  (if getD hr_input "PercentSalaryHike" 13 < 10 then ["low_hike"] else []) ++
  (if getD hr_input "BusinessTravel" 1 = 2 then ["frequent_travel"] else []) ++
  (if getD hr_input "EnvironmentSatisfaction" 4 ≤ 2 then ["low_environment_satisfaction"] else [])

/-- The raw labelled profile of end-to-end scenario 2 of the spec. -/
def scenario2_profile : List (String × RawValue) :=
  [("OverTime", .str "Tidak"), ("JobSatisfaction", .str "Sangat Tinggi"),
   ("WorkLifeBalance", .str "Terbaik")]

/-- A full numeric profile at the schema defaults, with the three scenario-3
overrides `DistanceFromHome=25`, `YearsSinceLastPromotion=3`,
`PercentSalaryHike=8`. -/
def scenario3_profile : List (String × Int) :=
  [("Age", 32), ("Gender", 1), ("MaritalStatus", 1), ("DistanceFromHome", 25),
   ("JobLevel", 3), ("YearsAtCompany", 5), ("YearsInCurrentRole", 2),
   ("YearsSinceLastPromotion", 3), ("OverTime", 0), ("BusinessTravel", 1),
   ("MonthlyIncome", 5000), ("PercentSalaryHike", 8), ("StockOptionLevel", 1),
   ("JobSatisfaction", 3), ("WorkLifeBalance", 3), ("EnvironmentSatisfaction", 3),
   ("PerformanceRating", 3)]

/-- A concrete deterministic stand-in for the surrogate explainer black box,
used to exercise `create_lime_explanation` on concrete inputs. -/
def demoExplainInstance : List ℚ → Except String (List (String × ℚ)) :=
  fun _ => .ok [("OverTime_Yes", 1/10)]

theorem pyMin_eq_min (a b : ℚ) : pyMin a b = min a b := by
  simp [pyMin, min_def]

theorem pyMax_eq_max (a b : ℚ) : pyMax a b = max a b := by
  unfold pyMax
  rw [max_def]
  split_ifs with h1 h2 h2
  · exact le_antisymm h2 h1
  · rfl
  · rfl
  · exact absurd (le_of_not_le h2) h1

/-- C2: for every categorical (selectbox) feature of the schema and every
label, normalization returns exactly the integer code the feature's option
map assigns to the label when present, and code 0 (without raising) when the
label is absent; in particular MaritalStatus "Menikah" normalizes to 1 and
MaritalStatus "unknown" to 0. -/
theorem claim2_normalize_categorical :
    (∀ (key : String) (cfg : FeatureConfig) (opts : List (String × Int)) (label : String),
      lookupFeature key = some cfg → cfg.ftype = "selectbox" → cfg.options = some opts →
      (∀ code : Int, lookupVal opts label = some code →
          normalize_value key (.str label) = .num code) ∧
      (lookupVal opts label = none → normalize_value key (.str label) = .num 0)) ∧
    normalize_value "MaritalStatus" (.str "Menikah") = .num 1 ∧
    normalize_value "MaritalStatus" (.str "unknown") = .num 0 := by
  refine ⟨?_, by decide, by decide⟩
  intro key cfg opts label hfeat hty hopts
  constructor
  · intro code hcode
    simp [normalize_value, hfeat, hty, hopts, getD, hcode]
  · intro hcode
    simp [normalize_value, hfeat, hty, hopts, getD, hcode]

/-- Witness for C2 at the concrete feature MaritalStatus and label
"Menikah". -/
theorem claim2_witness :
    normalize_value "MaritalStatus" (.str "Menikah") = .num 1 :=
  ((claim2_normalize_categorical.1 "MaritalStatus"
      ⟨"selectbox", some [("Lajang", 0), ("Menikah", 1), ("Bercerai", 2)]⟩
      [("Lajang", 0), ("Menikah", 1), ("Bercerai", 2)] "Menikah"
      (by decide) rfl rfl).1 1 (by decide))

/-- C4: the marital-status one-hot synthesis never sets both the Married and
the Single indicator to 1; code 1 yields Married=1, Single=0; code 0 yields
Single=1, Married=0; code 2 (divorced) yields both 0. -/
theorem claim4_marital_one_hot :
    ∀ (p : List (String × Int)) (m : Int), lookupVal p "MaritalStatus" = some m →
    (¬ (columnValue p "MaritalStatus_Married" = 1 ∧ columnValue p "MaritalStatus_Single" = 1)) ∧
    (m = 1 → columnValue p "MaritalStatus_Married" = 1 ∧ columnValue p "MaritalStatus_Single" = 0) ∧
    (m = 0 → columnValue p "MaritalStatus_Single" = 1 ∧ columnValue p "MaritalStatus_Married" = 0) ∧
    (m = 2 → columnValue p "MaritalStatus_Married" = 0 ∧ columnValue p "MaritalStatus_Single" = 0) := by
  intro p m hm
  have hmar : columnValue p "MaritalStatus_Married" = if m = 1 then 1 else 0 := by
    simp [columnValue, categorical_mapping_value, getD, hm]
  have hsin : columnValue p "MaritalStatus_Single" = if m = 0 then 1 else 0 := by
    simp [columnValue, categorical_mapping_value, getD, hm]
  rw [hmar, hsin]
  refine ⟨?_, ?_, ?_, ?_⟩
  · rintro ⟨h1, h2⟩
    split_ifs at h1 h2 with e1 e2 <;> omega
  · intro h; simp [h]
  · intro h; simp [h]
  · intro h; simp [h]

/-- Witness for C4 at a profile with marital-status code 2 (divorced). -/
theorem claim4_witness :
    columnValue [("MaritalStatus", 2)] "MaritalStatus_Married" = 0 ∧
    columnValue [("MaritalStatus", 2)] "MaritalStatus_Single" = 0 :=
  (claim4_marital_one_hot [("MaritalStatus", 2)] 2 rfl).2.2.2 rfl

/-- C8: for any profile with DistanceFromHome 25, YearsSinceLastPromotion 3
and PercentSalaryHike 8 and every other checked field at its satisfactory
schema default, the rule-based risk-factor flags are exactly the distance
(>20), no-promotion (3 or more years) and low-hike (<10 percent) flags, in
that check order, and no others. -/
theorem claim8_rule_based_flags :
    ∀ p : List (String × Int),
      getD p "DistanceFromHome" 0 = 25 → getD p "YearsSinceLastPromotion" 0 = 3 →
      getD p "PercentSalaryHike" 13 = 8 → getD p "OverTime" 0 = 0 →
      getD p "JobSatisfaction" 4 = 3 → getD p "WorkLifeBalance" 4 = 3 →
      getD p "BusinessTravel" 1 = 1 → getD p "EnvironmentSatisfaction" 4 = 3 →
      risk_factors p = ["no_promotion", "distance", "low_hike"] := by
  intro p h1 h2 h3 h4 h5 h6 h7 h8
  rw [risk_factors, h1, h2, h3, h4, h5, h6, h7, h8]
  norm_num

/-- Witness for C8 at the concrete scenario-3 profile. -/
theorem claim8_witness :
    risk_factors scenario3_profile = ["no_promotion", "distance", "low_hike"] :=
  claim8_rule_based_flags scenario3_profile (by decide) (by decide) (by decide)
    (by decide) (by decide) (by decide) (by decide) (by decide)

/-- C5: with no trained model, `make_prediction` computes the risk score as
0.3 + 0.2*overtime + 0.3*(1 - jobSatisfaction/4) + 0.2*(1 - workLifeBalance/4)
clamped to [0.05, 0.95], returns label 1 (leave) iff the clamped score
exceeds 0.5 strictly, and the probability pair [1 - risk, risk]. -/
theorem claim5_fallback_heuristic :
    ∀ (p : List (String × Int)) (fns : List String) (o s w : Int),
      getD p "OverTime" 0 = o → getD p "JobSatisfaction" 3 = s →
      getD p "WorkLifeBalance" 3 = w →
      make_prediction none none p fns =
        some ((if pyMin (pyMax ((3:ℚ)/10 + (2/10) * o + (3/10) * (1 - s/4)
                  + (2/10) * (1 - w/4)) (5/100)) (95/100) > 1/2 then 1 else 0),
          (1 - pyMin (pyMax ((3:ℚ)/10 + (2/10) * o + (3/10) * (1 - s/4)
                  + (2/10) * (1 - w/4)) (5/100)) (95/100),
           pyMin (pyMax ((3:ℚ)/10 + (2/10) * o + (3/10) * (1 - s/4)
                  + (2/10) * (1 - w/4)) (5/100)) (95/100))) := by
  intro p fns o s w ho hs hw
  have harith : (3:ℚ)/10 + ((o:ℚ)) * (2/10) + (1 - (s:ℚ)/4) * (3/10) + (1 - (w:ℚ)/4) * (2/10)
      = (3:ℚ)/10 + (2/10) * o + (3/10) * (1 - (s:ℚ)/4) + (2/10) * (1 - (w:ℚ)/4) := by
    ring
  simp only [make_prediction, ho, hs, hw, harith]

/-- Witness for C5 at the empty profile (overtime 0, satisfaction 3,
balance 3 via the dict defaults). -/
theorem claim5_witness :
    make_prediction none none [] [] =
      some ((if pyMin (pyMax ((3:ℚ)/10 + (2/10) * (0:Int) + (3/10) * (1 - (3:Int)/4)
                + (2/10) * (1 - (3:Int)/4)) (5/100)) (95/100) > 1/2 then 1 else 0),
        (1 - pyMin (pyMax ((3:ℚ)/10 + (2/10) * (0:Int) + (3/10) * (1 - (3:Int)/4)
                + (2/10) * (1 - (3:Int)/4)) (5/100)) (95/100),
         pyMin (pyMax ((3:ℚ)/10 + (2/10) * (0:Int) + (3/10) * (1 - (3:Int)/4)
                + (2/10) * (1 - (3:Int)/4)) (5/100)) (95/100))) :=
  claim5_fallback_heuristic [] [] 0 3 3 rfl rfl rfl

/-- C6: whenever `make_prediction` succeeds — the fallback path
unconditionally, and the live-model path provided the black-box classifier
honours the standard contract (probabilities summing to 1 within 1e-6 and
label 1 iff P(leave) exceeds 0.5) — the returned probability pair sums to 1
within 1e-6 and the label is leave iff P(leave) exceeds 0.5. -/
theorem claim6_probability_contract :
    ∀ (model : Option TrainedModel) (scaler : Option (List ℚ → Except String (List ℚ)))
      (p : List (String × Int)) (fns : List String),
      (∀ m, model = some m → ∀ (v : List ℚ) (pred : Int) (proba : ℚ × ℚ),
        m.predict v = .ok pred → m.predictProba v = .ok proba →
        |proba.1 + proba.2 - 1| ≤ 1/1000000 ∧ (pred = 1 ↔ proba.2 > 1/2)) →
      ∀ (pred : Int) (proba : ℚ × ℚ),
        make_prediction model scaler p fns = some (pred, proba) →
        |proba.1 + proba.2 - 1| ≤ 1/1000000 ∧ (pred = 1 ↔ proba.2 > 1/2) := by
  intro model scaler p fns hm pred proba hres
  match model with
  | none =>
    obtain ⟨r, hr⟩ : ∃ r : ℚ, make_prediction none scaler p fns
        = some ((if r > 1/2 then 1 else 0), (1 - r, r)) := ⟨_, rfl⟩
    rw [hr] at hres
    simp only [Option.some_inj, Prod.mk.injEq] at hres
    obtain ⟨hpred, hproba⟩ := hres
    subst hpred
    subst hproba
    constructor
    · have h0 : (1 - r) + r - 1 = (0:ℚ) := by ring
      simp [h0]
    · simp only
      split_ifs with h
      · simpa using h
      · simpa using h
  | some m =>
    simp only [make_prediction] at hres
    split at hres
    · exact Option.noConfusion hres
    · rename_i input hsc
      split at hres
      · rename_i pr pb hp hq
        simp only [Option.some_inj, Prod.mk.injEq] at hres
        obtain ⟨h1, h2⟩ := hres
        subst h1
        subst h2
        exact hm m rfl input pr pb hp hq
      · exact Option.noConfusion hres

/-- Witness for C6 on the fallback path at the empty profile. -/
theorem claim6_witness :
    |(1 - (425:ℚ)/1000) + 425/1000 - 1| ≤ 1/1000000 ∧ ((0:Int) = 1 ↔ ((425:ℚ)/1000) > 1/2) :=
  claim6_probability_contract none none [] [] (fun m h => Option.noConfusion h)
    0 (1 - 425/1000, 425/1000)
    (by norm_num [make_prediction, getD, lookupVal, pyMin, pyMax])

/-- C10: in the fallback path, keys absent from the profile take the fixed
dict defaults (OverTime 0, JobSatisfaction 3, WorkLifeBalance 3) instead of
raising, so a profile missing all three has risk exactly
0.3 + 0.075 + 0.05 = 0.425 and predicted label 0 (stay). -/
theorem claim10_fallback_defaults :
    ∀ (p : List (String × Int)) (fns : List String),
      lookupVal p "OverTime" = none → lookupVal p "JobSatisfaction" = none →
      lookupVal p "WorkLifeBalance" = none →
      make_prediction none none p fns =
        some (0, (1 - ((3:ℚ)/10 + 75/1000 + 5/100), (3:ℚ)/10 + 75/1000 + 5/100)) := by
  intro p fns h1 h2 h3
  simp only [make_prediction, getD, h1, h2, h3]
  norm_num [pyMin, pyMax]

/-- Witness for C10 at the empty profile. -/
theorem claim10_witness :
    make_prediction none none [] [] =
      some (0, (1 - ((3:ℚ)/10 + 75/1000 + 5/100), (3:ℚ)/10 + 75/1000 + 5/100)) :=
  claim10_fallback_defaults [] [] rfl rfl rfl

/-- C7 counterexample: the scenario-2 profile (OverTime "Tidak",
JobSatisfaction "Sangat Tinggi", WorkLifeBalance "Terbaik") gives fallback
risk exactly 0.3 with label stay; 0.3 is not at or near the 0.05 floor (it
is not even within 0.1 of it), refuting the claimed "at or near the 0.05
floor". -/
theorem claim7_counterexample :
    make_prediction none none (toNumericProfile (normalize_profile scenario2_profile)) []
      = some (0, ((7:ℚ)/10, (3:ℚ)/10)) ∧
    ¬ ((3:ℚ)/10 ≤ 5/100 + 1/10) := by
  have hprof : toNumericProfile (normalize_profile scenario2_profile)
      = [("OverTime", 0), ("JobSatisfaction", 4), ("WorkLifeBalance", 4)] := by decide
  constructor
  · rw [hprof]
    have h1 : getD [("OverTime", (0:Int)), ("JobSatisfaction", 4), ("WorkLifeBalance", 4)] "OverTime" 0 = 0 := by decide
    have h2 : getD [("OverTime", (0:Int)), ("JobSatisfaction", 4), ("WorkLifeBalance", 4)] "JobSatisfaction" 3 = 4 := by decide
    have h3 : getD [("OverTime", (0:Int)), ("JobSatisfaction", 4), ("WorkLifeBalance", 4)] "WorkLifeBalance" 3 = 4 := by decide
    simp only [make_prediction, h1, h2, h3]
    norm_num [pyMin, pyMax]
  · norm_num

/-- C7 amended: the scenario-2 profile normalizes to codes 0, 4, 4 and the
fallback path yields risk exactly 0.3 (the heuristic's base constant, well
above the 0.05 floor) with predicted label 0 (stay). -/
theorem claim7_amended :
    normalize_profile scenario2_profile =
      [("OverTime", .num 0), ("JobSatisfaction", .num 4), ("WorkLifeBalance", .num 4)] ∧
    make_prediction none none (toNumericProfile (normalize_profile scenario2_profile)) []
      = some (0, ((7:ℚ)/10, (3:ℚ)/10)) := by
  have hprof : toNumericProfile (normalize_profile scenario2_profile)
      = [("OverTime", 0), ("JobSatisfaction", 4), ("WorkLifeBalance", 4)] := by decide
  constructor
  · decide
  · rw [hprof]
    have h1 : getD [("OverTime", (0:Int)), ("JobSatisfaction", 4), ("WorkLifeBalance", 4)] "OverTime" 0 = 0 := by decide
    have h2 : getD [("OverTime", (0:Int)), ("JobSatisfaction", 4), ("WorkLifeBalance", 4)] "JobSatisfaction" 3 = 4 := by decide
    have h3 : getD [("OverTime", (0:Int)), ("JobSatisfaction", 4), ("WorkLifeBalance", 4)] "WorkLifeBalance" 3 = 4 := by decide
    simp only [make_prediction, h1, h2, h3]
    norm_num [pyMin, pyMax]

/-- C3 counterexample: with the empty profile and a feature list containing
the MaritalStatus_Single column, the built vector is [1], not all-zero — the
missing marital-status code defaults to 0, which the one-hot synthesis reads
as "single". -/
theorem claim3_counterexample :
    prepare_model_input [] ["MaritalStatus_Single"] = [1] ∧
    ¬ (∀ x ∈ prepare_model_input [] ["MaritalStatus_Single"], x = (0:Int)) := by
  constructor
  · decide
  · decide

/-- C3 amended: the built vector always has the feature list's length, its
i-th entry is a function of the i-th column name alone (so the column order
is the list's order, independent of the profile's key order), columns with
no semantic source are zero, and for the empty profile every column is zero
except a MaritalStatus_Single column, which is 1. -/
theorem claim3_model_input_shape :
    ∀ (p : List (String × Int)) (fns : List String),
      (prepare_model_input p fns).length = fns.length ∧
      (∀ (i : ℕ) (h : i < fns.length) (h2 : i < (prepare_model_input p fns).length),
        (prepare_model_input p fns).get ⟨i, h2⟩ = columnValue p (fns.get ⟨i, h⟩)) ∧
      (∀ q : List (String × Int), (∀ k, lookupVal p k = lookupVal q k) →
        prepare_model_input p fns = prepare_model_input q fns) ∧
      (∀ name, categorical_mapping_value p name = none →
        feature_mapping.contains name = false → columnValue p name = 0) ∧
      (∀ name, name ≠ "MaritalStatus_Single" → columnValue [] name = 0) ∧
      columnValue ([] : List (String × Int)) "MaritalStatus_Single" = 1 := by
  intro p fns
  refine ⟨?_, ?_, ?_, ?_, ?_, by decide⟩
  · simp [prepare_model_input]
  · intro i h h2
    simp [prepare_model_input, List.get_eq_getElem, List.getElem_map]
  · intro q hq
    have hcol : ∀ name, columnValue p name = columnValue q name := by
      intro name
      simp only [columnValue, categorical_mapping_value, getD, hq]
    simp only [prepare_model_input]
    exact List.map_congr_left (fun a _ => hcol a)
  · intro name hcat hdir
    simp at hdir
    simp [columnValue, hcat, hdir]
  · intro name hname
    have hget : ∀ k d, getD [] k d = d := fun k d => rfl
    simp only [columnValue, categorical_mapping_value, hget]
    norm_num
    split_ifs with e1 e2 e3 e4 e5 e6 <;> try rfl

/-- Witness for C3 (amended) at a one-key profile and one-column list. -/
theorem claim3_witness :
    (prepare_model_input [("Age", 41)] ["Age"]).length = 1 ∧
    columnValue ([] : List (String × Int)) "Age" = 0 :=
  ⟨(claim3_model_input_shape [("Age", 41)] ["Age"]).1,
   (claim3_model_input_shape [("Age", 41)] ["Age"]).2.2.2.2.1 "Age" (by decide)⟩

/-- C1 counterexample: with an empty cache (so the key is absent), two calls
of `create_lime_explanation` on the identical profile invoke the surrogate
explainer once each — two invocations in total, not at most one, because the
function never writes the cache. -/
theorem claim1_counterexample :
    (create_lime_explanation none demoExplainInstance [("Age", 30)] [] []).2 +
      (create_lime_explanation none demoExplainInstance [("Age", 30)] [] []).2 = 2 ∧
    ¬ ((create_lime_explanation none demoExplainInstance [("Age", 30)] [] []).2 +
      (create_lime_explanation none demoExplainInstance [("Age", 30)] [] []).2 ≤ 1) := by
  constructor
  · rfl
  · decide

/-- C1 amended: when input preparation and scaling succeed, a call whose
cache key (the sorted item list of the profile) is present in the cache
returns the cached (features, values) pair verbatim with zero explainer
invocations; but since the function never inserts into the cache, a call
whose key is absent performs exactly one explainer invocation — so two
identical calls on a cache miss invoke the explainer twice. -/
theorem claim1_cache_read_only :
    ∀ (st : Option (List ℚ → Except String (List ℚ)))
      (ei : List ℚ → Except String (List (String × ℚ)))
      (p : List (String × Int)) (fns : List String) (cache : ExplanationCache)
      (input : List ℚ),
      scaled_model_input st p fns = .ok input →
      (∀ cached, lookupCache cache (cacheKey p) = some cached →
        create_lime_explanation st ei p fns cache = (cached, 0)) ∧
      (lookupCache cache (cacheKey p) = none →
        (create_lime_explanation st ei p fns cache).2 = 1) := by
  intro st ei p fns cache input hok
  constructor
  · intro cached hc
    simp [create_lime_explanation, hok, hc]
  · intro hc
    simp only [create_lime_explanation, hok, hc]
    cases hei : ei input <;> simp [hei]

/-- Witness for C1 (amended): a cache holding the profile's key returns the
cached pair verbatim with zero invocations. -/
theorem claim1_witness :
    create_lime_explanation none demoExplainInstance [("Age", 30)] []
      [([("Age", 30)], (["cached_feature"], [2/10]))]
      = ((["cached_feature"], [2/10]), 0) :=
  (claim1_cache_read_only none demoExplainInstance [("Age", 30)] []
      [([("Age", 30)], (["cached_feature"], [2/10]))]
      ((prepare_model_input [("Age", 30)] []).map (fun n => (n : ℚ))) rfl).1
    (["cached_feature"], [2/10]) rfl

/-- C9: any exception during explanation generation — in preparation/scaling
or in the surrogate explainer — is caught and the call returns the empty
explanation (empty feature and value lists) instead of propagating. -/
theorem claim9_exception_to_empty :
    ∀ (st : Option (List ℚ → Except String (List ℚ)))
      (ei : List ℚ → Except String (List (String × ℚ)))
      (p : List (String × Int)) (fns : List String) (cache : ExplanationCache),
      (∀ e, scaled_model_input st p fns = .error e →
        (create_lime_explanation st ei p fns cache).1 = ([], [])) ∧
      (∀ input e, scaled_model_input st p fns = .ok input →
        lookupCache cache (cacheKey p) = none → ei input = .error e →
        (create_lime_explanation st ei p fns cache).1 = ([], [])) := by
  intro st ei p fns cache
  constructor
  · intro e he
    simp [create_lime_explanation, he]
  · intro input e hok hc hei
    simp [create_lime_explanation, hok, hc, hei]

/-- Witness for C9: a scaler that raises yields the empty explanation. -/
theorem claim9_witness :
    (create_lime_explanation (some (fun _ => .error "scaler_failure"))
      (fun _ => .ok []) [] [] []).1 = ([], []) :=
  (claim9_exception_to_empty (some (fun _ => .error "scaler_failure"))
      (fun _ => .ok []) [] [] []).1 "scaler_failure" rfl

end HRApp
